import Mathlib

/-!
Shallow embedding of the SOCKS5 proxy core of edgemesh
(`agent/pkg/proxy/socks5_proxy.go`), together with theorems checking the
natural-language specification against it.

Modelling conventions:
* Bytes are `Nat` values (< 256 on real wires; hypotheses state this where
  the arithmetic depends on it).
* A `net.Conn` is modelled by `Conn`: `pending` is the byte stream the peer
  will deliver, `sched` is the delivery schedule (how many bytes the k-th
  `Read` call returns at most; an exhausted schedule means a read delivers
  everything it asked for that is available).  Go's `conn.Read(buf)` copies
  the delivered bytes into the front of a zero-initialised buffer and returns
  the delivered count, which the proxy code ignores; accordingly `connRead`
  returns the whole buffer: delivered bytes padded with zeros.  A read on an
  exhausted stream fails (EOF).  `writes` records every `Write` call's
  payload; `written` records the bytes actually written (a failing
  connection, `writeErr = true`, accepts no bytes).
* External collaborators (the Kubernetes pod listing and the tunnel
  transport, which the spec declares out of scope) are a `World` record:
  `listPods nodeName` is the backend query result and `streamOk` says
  whether `tunnel.Agent.ProxySvc.GetProxyStream` succeeds.
* Effects of one `HandleSocksProxy` call are collected in `Trace`:
  backend queries issued, tunnel-stream requests issued (`ProxyOptions`
  values passed to `GetProxyStream`), whether the relay
  (`go util.ProxyConn`) was started, and whether the connection was closed.
-/

namespace EdgeMesh

/-- SOCKS5 version byte (`Version byte = 0x05`). -/
def Version : Nat := 5

/-- "No certification required" method byte (`DefaultMethod byte = 0x00`). -/
def DefaultMethod : Nat := 0

/-- Success byte (`Success byte = 0x00`). -/
def Success : Nat := 0

/-- IPv4 address type (`ATYPIPv4 byte = 0x01`). -/
def ATYPIPv4 : Nat := 1

/-- Domain address type (`ATYPDomain byte = 0x03`). -/
def ATYPDomain : Nat := 3

/-- IPv6 address type (`ATYPIPv6 byte = 0x04`). -/
def ATYPIPv6 : Nat := 4

/-- Connect command (`CmdConnect byte = 0x01`). -/
def CmdConnect : Nat := 1

/-- Mesh-agent pod-name substring (`AgentPodName = "edgemesh-agent"`). -/
def AgentPodName : String := "edgemesh-agent"

/-- `DefaultResponse = []byte{Version, Success, 0x00, 0x01, 0,0,0,0, 0,0}`. -/
def DefaultResponse : List Nat := [5, 0, 0, 1, 0, 0, 0, 0, 0, 0]

/-- Model of a `net.Conn` (see the module docstring). -/
structure Conn where
  pending : List Nat
  sched : List Nat
  written : List Nat
  writes : List (List Nat)
  writeErr : Bool
deriving Repr, DecidableEq

/-- `conn.Read(make([]byte, n))`: the k-th read delivers
`min n (sched-cap) (available)` bytes; the code reads the whole
zero-initialised buffer back, so the result is the delivered bytes padded
with zeros up to `n`.  Fails (EOF) only on an exhausted stream. -/
def connRead (c : Conn) (n : Nat) : Conn × Option (List Nat) :=
  if n = 0 then (c, some [])
  else if c.pending = [] then (c, none)
  else
    let cap := max (c.sched.headD n) 1
    let d := min n (min cap c.pending.length)
    ({ c with pending := c.pending.drop d, sched := c.sched.tail },
     some (c.pending.take d ++ List.replicate (n - d) 0))

/-- `conn.Write(bs)`: records the attempt, and appends the bytes when the
connection accepts writes.  Returns the updated connection and whether the
write succeeded (`err == nil`). -/
def connWrite (c : Conn) (bs : List Nat) : Conn × Bool :=
  let c1 := { c with writes := c.writes ++ [bs] }
  if c.writeErr then (c1, false)
  else ({ c1 with written := c1.written ++ bs }, true)

/-- The `Request` struct: one parsed SOCKS5 client request. -/
structure Request where
  Version : Nat
  Command : Nat
  Rsv : Nat
  AddressType : Nat
  DstAddr : String
  DstPort : Int
deriving Repr, DecidableEq

/-- The `SocksHandle` struct: holds the (pointer to the) parsed request. -/
structure SocksHandle where
  Request : Request
deriving Repr, DecidableEq

/-- The `Socks5Proxy` struct, restricted to the fields the claims are about:
the node name and the proxy-level `SocksHandle` (the TCP listener and the
Kubernetes client are external collaborators). -/
structure Socks5Proxy where
  NodeName : String
  SocksHandle : SocksHandle
deriving Repr, DecidableEq

/-- One item of the backend pod listing: `{pod.Name, pod.Status.PodIP}`. -/
structure Pod where
  name : String
  podIP : String
deriving Repr, DecidableEq

/-- External collaborators: the pod-listing backend keyed by node name, and
whether the tunnel transport can provide a relay stream. -/
structure World where
  listPods : String → Except String (List Pod)
  streamOk : Bool

/-- The `proxy.ProxyOptions` passed to `GetProxyStream`. -/
structure ProxyOptions where
  Protocol : String
  NodeName : String
  IP : String
  Port : Int
deriving Repr, DecidableEq

/-- Observable effects of one `HandleSocksProxy` call. -/
structure Trace where
  queries : List String
  tunnelCalls : List ProxyOptions
  relayStarted : Bool
  closed : Bool
deriving Repr, DecidableEq

/-- Result of `HandleSocksProxy`: the (possibly mutated) proxy, the final
connection state, and the effect trace. -/
structure HandleOut where
  proxy : Socks5Proxy
  conn : Conn
  trace : Trace
deriving Repr, DecidableEq

/-- Result of `proxyConnectToRemote`: final connection state, the options
passed to `GetProxyStream`, and whether `go util.ProxyConn` was started. -/
structure DispatchOut where
  conn : Conn
  opts : ProxyOptions
  relayStarted : Bool
deriving Repr, DecidableEq

/-- Is `pat` a leading segment of `s`?  (helper for `strContains`). -/
def leadsWith : List Char → List Char → Bool
  | [], _ => true
  | _ :: _, [] => false
  | p :: ps, c :: cs => p = c && leadsWith ps cs

/-- Does `s` contain `pat` as a contiguous segment?  (helper). -/
def segIn : List Char → List Char → Bool
  | s, pat =>
    leadsWith pat s ||
      match s with
      | [] => false
      | _ :: cs => segIn cs pat

/-- Go's `strings.Contains(s, sub)`. -/
def strContains (s sub : String) : Bool :=
  segIn s.toList sub.toList

/-- `net.IP(addr).String()` for a 4-byte slice: dotted decimal. -/
def ip4Render (addr : List Nat) : String :=
  toString (addr.getD 0 0) ++ "." ++ toString (addr.getD 1 0) ++ "." ++
    toString (addr.getD 2 0) ++ "." ++ toString (addr.getD 3 0)

/-- Go's `string(addr)` on a byte slice. -/
def strOfBytes (addr : List Nat) : String :=
  String.mk (addr.map Char.ofNat)

/-- `int32(binary.BigEndian.Uint16(port))`: the big-endian unsigned 16-bit
value of the two port bytes (`uint16(b0) shifted left by 8, or-ed with b1`,
which on byte values is `b0 * 256 + b1`), stored as a signed 32-bit value
(no overflow since the value is below 2^16). -/
def bePort (b0 b1 : Nat) : Int :=
  ((b0 % 256) * 256 + b1 % 256 : Nat)

/-- `SocksHandle.handShake`: read the 2-byte header, check version and
method count, read the method bytes, look for the no-authentication method,
and on success write `{Version, Success}`. -/
def handShake (c : Conn) : Conn × Option String :=
  match connRead c 2 with
  | (c1, none) => (c1, some "read error")
  | (c1, some data) =>
    if data.getD 0 0 ≠ Version then (c1, some "invalid version")
    else if data.getD 1 0 = 0 then (c1, some "method length error")
    else
      match connRead c1 (data.getD 1 0) with
      | (c2, none) => (c2, some "read error")
      | (c2, some ms) =>
        let flag := ms.foldl (fun f m => if m = DefaultMethod then true else f) false
        if flag = false then (c2, some "this method is not yet supported")
        else
          let cw := connWrite c2 [Version, Success]
          if cw.2 then (cw.1, none) else (cw.1, some "write error")

/-- Tail of `SocksHandle.NewRequest`: read the 2 port bytes and build the
`Request` from the 4 header bytes, the rendered host and the port. -/
def finishRequest (s : SocksHandle) (c : Conn) (data : List Nat) (host : String) :
    SocksHandle × Conn × Option String :=
  match connRead c 2 with
  | (c4, none) => (s, c4, some "read error")
  | (c4, some port) =>
    (⟨{ Version := data.getD 0 0, Command := data.getD 1 0, Rsv := data.getD 2 0,
        AddressType := data.getD 3 0, DstAddr := host,
        DstPort := bePort (port.getD 0 0) (port.getD 1 0) }⟩, c4, none)

/-- `SocksHandle.NewRequest`: read the 4-byte header, check the version,
branch on the address type (IPv4 / IPv6 / domain, in the source's order),
read the address bytes, render the host, then read the port and populate
`s.Request`.  `render6` stands for `net.IP(addr).String()` on a 16-byte
slice (standard-library rendering, external to this repository). -/
def NewRequest (render6 : List Nat → String) (s : SocksHandle) (c : Conn) :
    SocksHandle × Conn × Option String :=
  match connRead c 4 with
  | (c1, none) => (s, c1, some "read error")
  | (c1, some data) =>
    if data.getD 0 0 ≠ Version then (s, c1, some "invalid version")
    else if data.getD 3 0 = ATYPIPv4 then
      match connRead c1 4 with
      | (c2, none) => (s, c2, some "read error")
      | (c2, some addr) => finishRequest s c2 data (ip4Render addr)
    else if data.getD 3 0 = ATYPIPv6 then
      match connRead c1 16 with
      | (c2, none) => (s, c2, some "read error")
      | (c2, some addr) => finishRequest s c2 data (render6 addr)
    else if data.getD 3 0 = ATYPDomain then
      match connRead c1 1 with
      | (c2, none) => (s, c2, some "read error")
      | (c2, some dal) =>
        match connRead c2 (dal.getD 0 0) with
        | (c3, none) => (s, c3, some "read error")
        | (c3, some addr) => finishRequest s c3 data (strOfBytes addr)
    else (s, c1, some "destination address is incorrect")

/-- `SocksHandle.ParsingConnect`: handshake, then request parse. -/
def parsingConnect (render6 : List Nat → String) (s : SocksHandle) (c : Conn) :
    SocksHandle × Conn × Option String :=
  match handShake c with
  | (c1, some e) => (s, c1, some e)
  | (c1, none) => NewRequest render6 s c1

/-- `Socks5Proxy.getTargetIpByNodeName`: list pods on the node with the
mesh-agent label; iterate, keeping the pod IP of every item whose name
contains `AgentPodName` (so the last match wins); error when the backend
call errors or when no item matched. -/
def getTargetIpByNodeName (w : World) (nodeName : String) : Except String String :=
  match w.listPods nodeName with
  | .error e => .error e
  | .ok pods =>
    let r := pods.foldl
      (fun acc pod => if strContains pod.name AgentPodName then (pod.podIP, true) else acc)
      ("", false)
    if r.2 then .ok r.1
    else .error ("edgemesh agent not found on node [" ++ nodeName ++ "]")

/-- `proxyConnectToRemote`: request a relay stream for
`(tcp, host, targetIP, port)`; on failure just return; on success write
`DefaultResponse` (a failure of this write is only logged) and start
`go util.ProxyConn(stream, conn)`. -/
def proxyConnectToRemote (w : World) (host targetIP : String) (port : Int) (c : Conn) :
    DispatchOut :=
  let opts : ProxyOptions := { Protocol := "tcp", NodeName := host, IP := targetIP, Port := port }
  if w.streamOk = false then
    { conn := c, opts := opts, relayStarted := false }
  else
    let cw := connWrite c DefaultResponse
    { conn := cw.1, opts := opts, relayStarted := true }

/-- `Socks5Proxy.HandleSocksProxy`: parse (mutating the proxy-level
`SocksHandle`), apply the policy gate (domain-type destination that is not
the local node), resolve the target IP, and dispatch on `CmdConnect`.
`defer conn.Close()` closes the connection on every path. -/
def handleSocksProxy (render6 : List Nat → String) (w : World) (s : Socks5Proxy) (c : Conn) :
    HandleOut :=
  match parsingConnect render6 s.SocksHandle c with
  | (h, c1, some _) =>
    ⟨{ s with SocksHandle := h }, c1, ⟨[], [], false, true⟩⟩
  | (h, c1, none) =>
    let s1 : Socks5Proxy := { s with SocksHandle := h }
    let req := h.Request
    if req.AddressType ≠ ATYPDomain ∨ req.DstAddr = s1.NodeName then
      ⟨s1, c1, ⟨[], [], false, true⟩⟩
    else
      match getTargetIpByNodeName w req.DstAddr with
      | .error _ => ⟨s1, c1, ⟨[req.DstAddr], [], false, true⟩⟩
      | .ok targetIP =>
        if req.Command = CmdConnect then
          let d := proxyConnectToRemote w req.DstAddr targetIP req.DstPort c1
          ⟨s1, d.conn, ⟨[req.DstAddr], [d.opts], d.relayStarted, true⟩⟩
        else
          ⟨s1, c1, ⟨[req.DstAddr], [], false, true⟩⟩

/-- `NewSocks5Proxy`: builds the one `Socks5Proxy` with its single
`SocksHandle` holding a zero-valued `Request` (the listener setup is
external). -/
def newSocks5Proxy (nodeName : String) : Socks5Proxy :=
  { NodeName := nodeName, SocksHandle := ⟨⟨0, 0, 0, 0, "", 0⟩⟩ }

/-! ### Helper lemmas -/

/-- A read of exactly `n` bytes from an unthrottled stream holding at least
`n` bytes delivers those `n` bytes and leaves the rest pending. -/
theorem connRead_full (bs rest w : List Nat) (ws : List (List Nat)) (we : Bool) (n : Nat)
    (hb : bs.length = n) :
    connRead ⟨bs ++ rest, [], w, ws, we⟩ n = (⟨rest, [], w, ws, we⟩, some bs) := by
  by_cases hn : n = 0
  · subst hn
    have hbs : bs = [] := List.length_eq_zero.mp hb
    subst hbs
    rfl
  subst hb
  have hbs : bs ≠ [] := by
    intro h
    exact hn (by simp [h])
  unfold connRead
  rw [if_neg hn, if_neg (by simp [hbs])]
  have h1 : max (([] : List Nat).headD bs.length) 1 = bs.length := by
    simp only [List.headD_nil]
    omega
  have h2 : min bs.length (min (max (([] : List Nat).headD bs.length) 1)
      (bs ++ rest).length) = bs.length := by
    rw [h1]
    simp only [List.length_append]
    omega
  simp only [h2, List.drop_left, List.take_left, Nat.sub_self, List.replicate_zero,
    List.append_nil, List.tail_nil]

/-- The method-scanning loop of `handShake` returns `true` exactly when the
accumulator starts `true` or some scanned byte is `DefaultMethod`. -/
theorem flagLoop_true_iff (ms : List Nat) (b : Bool) :
    (ms.foldl (fun f m => if m = DefaultMethod then true else f) b = true) ↔
      (b = true ∨ DefaultMethod ∈ ms) := by
  induction ms generalizing b with
  | nil => simp
  | cons m ms ih =>
    simp only [List.foldl_cons, ih, List.mem_cons]
    by_cases hm : m = DefaultMethod <;> simp [hm, eq_comm]

/-! ### Claims -/

/-- C1: the spec says each parsed `Request` is exclusively owned by the
handling of its own connection, with no sharing across connections, so
`HandleSocksProxy` must not mutate proxy-level state.  The code stores the
parsed request in the proxy-level `SocksHandle` created once in
`NewSocks5Proxy` and shared by every connection: handling one connection
mutates that shared handle.  Concretely, handling a valid CONNECT request
for domain `abc` changes the proxy's `SocksHandle`. -/
theorem c1_handle_mutates_shared_state :
    (handleSocksProxy (fun _ => "") ⟨fun _ => .ok [], true⟩ (newSocks5Proxy "nodeA")
        ⟨[5, 1, 0] ++ [5, 1, 0, 3, 3, 97, 98, 99, 0, 80], [], [], [], false⟩).proxy.SocksHandle ≠
      (newSocks5Proxy "nodeA").SocksHandle := by decide

/-- C2: the spec says every field is read to its full declared length even
when a single read returns fewer bytes.  The code issues a single
`conn.Read` per field and ignores the returned count: on the valid
handshake bytes `[5, 1, 0]` delivered one byte at a time, the zero-padded
buffer is parsed as `(version 5, methodCount 0)` and the handshake fails
with "method length error", while the same bytes delivered in full
succeed. -/
theorem c2_single_read_not_full_length :
    (handShake ⟨[5, 1, 0], [1], [], [], false⟩).2 = some "method length error" ∧
    (handShake ⟨[5, 1, 0], [], [], [], false⟩).2 = none := by decide

/-- C3: on a stream holding a 2-byte header `(v, cnt)` followed by `cnt`
method bytes, the handshake succeeds writing exactly `{0x05, 0x00}` when
`v = 5`, `cnt ≠ 0` and some method byte is `0x00`; otherwise it returns an
error having written nothing. -/
theorem c3_handshake_spec (v cnt : Nat) (ms rest : List Nat) (hl : ms.length = cnt) :
    ((v = Version ∧ cnt ≠ 0 ∧ DefaultMethod ∈ ms) →
      handShake ⟨v :: cnt :: (ms ++ rest), [], [], [], false⟩ =
        (⟨rest, [], [5, 0], [[5, 0]], false⟩, none)) ∧
    ((v ≠ Version ∨ cnt = 0 ∨ DefaultMethod ∉ ms) →
      ((handShake ⟨v :: cnt :: (ms ++ rest), [], [], [], false⟩).2.isSome = true ∧
       (handShake ⟨v :: cnt :: (ms ++ rest), [], [], [], false⟩).1.written = [] ∧
       (handShake ⟨v :: cnt :: (ms ++ rest), [], [], [], false⟩).1.writes = [])) := by
  have hr1 : connRead ⟨v :: cnt :: (ms ++ rest), [], [], [], false⟩ 2 =
      (⟨ms ++ rest, [], [], [], false⟩, some [v, cnt]) := by
    have := connRead_full [v, cnt] (ms ++ rest) [] [] false 2 (by simp)
    simpa using this
  constructor
  · rintro ⟨hv, hc, hm⟩
    have hr2 : connRead ⟨ms ++ rest, [], [], [], false⟩ cnt =
        (⟨rest, [], [], [], false⟩, some ms) := connRead_full ms rest [] [] false cnt hl
    have hf : ms.foldl (fun f m => if m = DefaultMethod then true else f) false = true :=
      (flagLoop_true_iff ms false).mpr (Or.inr hm)
    subst hv
    unfold handShake
    rw [hr1]
    dsimp only
    rw [if_neg (by simp)]
    rw [if_neg (by simpa using hc)]
    have hg : [Version, cnt].getD 1 0 = cnt := rfl
    rw [hg, hr2]
    dsimp only
    rw [hf]
    rfl
  · intro hbad
    by_cases hv : v = Version
    · subst hv
      by_cases hc : cnt = 0
      · subst hc
        unfold handShake
        rw [hr1]
        dsimp only
        rw [if_neg (by simp)]
        rw [if_pos (show [Version, 0].getD 1 0 = 0 from rfl)]
        exact ⟨rfl, rfl, rfl⟩
      · have hm : DefaultMethod ∉ ms := by
          rcases hbad with h | h | h
          · exact absurd rfl h
          · exact absurd h hc
          · exact h
        have hr2 : connRead ⟨ms ++ rest, [], [], [], false⟩ cnt =
            (⟨rest, [], [], [], false⟩, some ms) := connRead_full ms rest [] [] false cnt hl
        have hf : ms.foldl (fun f m => if m = DefaultMethod then true else f) false = false := by
          cases hfb : ms.foldl (fun f m => if m = DefaultMethod then true else f) false
          · rfl
          · exact absurd ((flagLoop_true_iff ms false).mp hfb) (by simpa using hm)
        unfold handShake
        rw [hr1]
        dsimp only
        rw [if_neg (by simp)]
        rw [if_neg (by simpa using hc)]
        have hg : [Version, cnt].getD 1 0 = cnt := rfl
        rw [hg, hr2]
        dsimp only
        rw [hf]
        exact ⟨rfl, rfl, rfl⟩
    · unfold handShake
      rw [hr1]
      dsimp only
      rw [if_pos (by simpa using hv)]
      exact ⟨rfl, rfl, rfl⟩

/-- C3 witness: the handshake bytes `05 01 00` succeed with reply `05 00`. -/
theorem c3_handshake_spec_witness :
    handShake ⟨5 :: 1 :: ([0] ++ []), [], [], [], false⟩ =
      (⟨[], [], [5, 0], [[5, 0]], false⟩, none) :=
  (c3_handshake_spec 5 1 [0] [] (by decide)).1 (by decide)

/-- C4: a well-formed request with version 5 decodes as claimed: for IPv4,
`DstAddr` is the dotted-decimal rendering of the 4 address bytes; for a
domain, a length byte `n` followed by `n` bytes gives exactly those `n`
bytes as the address string; in both cases `DstPort` is the big-endian
16-bit value of the 2 port bytes, stored as a signed 32-bit value. -/
theorem c4_request_decoding (render6 : List Nat → String) (s : SocksHandle)
    (cmd rsv a b c d p0 p1 n : Nat) (name rest rest2 : List Nat)
    (hp0 : p0 < 256) (hp1 : p1 < 256) (hn : n < 256) (hname : name.length = n) :
    (NewRequest render6 s
        ⟨5 :: cmd :: rsv :: 1 :: a :: b :: c :: d :: p0 :: p1 :: rest, [], [], [], false⟩ =
      (⟨⟨5, cmd, rsv, 1,
          toString a ++ "." ++ toString b ++ "." ++ toString c ++ "." ++ toString d,
          ((p0 * 256 + p1 : Nat) : Int)⟩⟩, ⟨rest, [], [], [], false⟩, none)) ∧
    (NewRequest render6 s
        ⟨5 :: cmd :: rsv :: 3 :: n :: (name ++ p0 :: p1 :: rest2), [], [], [], false⟩ =
      (⟨⟨5, cmd, rsv, 3, String.mk (name.map Char.ofNat),
          ((p0 * 256 + p1 : Nat) : Int)⟩⟩, ⟨rest2, [], [], [], false⟩, none)) := by
  constructor
  · have hr1 : connRead
        ⟨5 :: cmd :: rsv :: 1 :: a :: b :: c :: d :: p0 :: p1 :: rest, [], [], [], false⟩ 4 =
        (⟨a :: b :: c :: d :: p0 :: p1 :: rest, [], [], [], false⟩, some [5, cmd, rsv, 1]) := by
      have := connRead_full [5, cmd, rsv, 1] (a :: b :: c :: d :: p0 :: p1 :: rest)
        [] [] false 4 (by simp)
      simpa using this
    have hr2 : connRead ⟨a :: b :: c :: d :: p0 :: p1 :: rest, [], [], [], false⟩ 4 =
        (⟨p0 :: p1 :: rest, [], [], [], false⟩, some [a, b, c, d]) := by
      have := connRead_full [a, b, c, d] (p0 :: p1 :: rest) [] [] false 4 (by simp)
      simpa using this
    have hr3 : connRead ⟨p0 :: p1 :: rest, [], [], [], false⟩ 2 =
        (⟨rest, [], [], [], false⟩, some [p0, p1]) := by
      have := connRead_full [p0, p1] rest [] [] false 2 (by simp)
      simpa using this
    unfold NewRequest
    rw [hr1]
    dsimp only
    rw [if_neg (by simp [Version])]
    rw [show ([5, cmd, rsv, 1] : List Nat).getD 3 0 = 1 from rfl]
    rw [if_pos (show (1 : Nat) = ATYPIPv4 from rfl)]
    rw [hr2]
    dsimp only
    unfold finishRequest
    rw [hr3]
    dsimp only
    simp [bePort, ip4Render, Nat.mod_eq_of_lt hp0, Nat.mod_eq_of_lt hp1]
  · have hr1 : connRead
        ⟨5 :: cmd :: rsv :: 3 :: n :: (name ++ p0 :: p1 :: rest2), [], [], [], false⟩ 4 =
        (⟨n :: (name ++ p0 :: p1 :: rest2), [], [], [], false⟩, some [5, cmd, rsv, 3]) := by
      have := connRead_full [5, cmd, rsv, 3] (n :: (name ++ p0 :: p1 :: rest2))
        [] [] false 4 (by simp)
      simpa using this
    have hr2 : connRead ⟨n :: (name ++ p0 :: p1 :: rest2), [], [], [], false⟩ 1 =
        (⟨name ++ p0 :: p1 :: rest2, [], [], [], false⟩, some [n]) := by
      have := connRead_full [n] (name ++ p0 :: p1 :: rest2) [] [] false 1 (by simp)
      simpa using this
    have hr3 : connRead ⟨name ++ p0 :: p1 :: rest2, [], [], [], false⟩ n =
        (⟨p0 :: p1 :: rest2, [], [], [], false⟩, some name) :=
      connRead_full name (p0 :: p1 :: rest2) [] [] false n hname
    have hr4 : connRead ⟨p0 :: p1 :: rest2, [], [], [], false⟩ 2 =
        (⟨rest2, [], [], [], false⟩, some [p0, p1]) := by
      have := connRead_full [p0, p1] rest2 [] [] false 2 (by simp)
      simpa using this
    unfold NewRequest
    rw [hr1]
    dsimp only
    rw [if_neg (by simp [Version])]
    rw [show ([5, cmd, rsv, 3] : List Nat).getD 3 0 = 3 from rfl]
    rw [if_neg (by decide : ¬ ((3 : Nat) = ATYPIPv4))]
    rw [if_neg (by decide : ¬ ((3 : Nat) = ATYPIPv6))]
    rw [if_pos (show (3 : Nat) = ATYPDomain from rfl)]
    rw [hr2]
    dsimp only
    have hg : [n].getD 0 0 = n := rfl
    rw [hg, hr3]
    dsimp only
    unfold finishRequest
    rw [hr4]
    dsimp only
    simp [bePort, strOfBytes, Nat.mod_eq_of_lt hp0, Nat.mod_eq_of_lt hp1]

/-- C4 witness: the IPv4 request `05 01 00 01 0a 00 00 05 1f 90` decodes to
`10.0.0.5:8080`, and the domain request `05 01 00 03 02 6d 79 1f 90`
decodes to `my:8080`. -/
theorem c4_request_decoding_witness :
    (NewRequest (fun _ => "") ⟨⟨0, 0, 0, 0, "", 0⟩⟩
        ⟨5 :: 1 :: 0 :: 1 :: 10 :: 0 :: 0 :: 5 :: 31 :: 144 :: [], [], [], [], false⟩ =
      (⟨⟨5, 1, 0, 1, "10.0.0.5", (8080 : Int)⟩⟩, ⟨[], [], [], [], false⟩, none)) ∧
    (NewRequest (fun _ => "") ⟨⟨0, 0, 0, 0, "", 0⟩⟩
        ⟨5 :: 1 :: 0 :: 3 :: 2 :: ([109, 121] ++ 31 :: 144 :: []), [], [], [], false⟩ =
      (⟨⟨5, 1, 0, 3, "my", (8080 : Int)⟩⟩, ⟨[], [], [], [], false⟩, none)) :=
  c4_request_decoding (fun _ => "") ⟨⟨0, 0, 0, 0, "", 0⟩⟩ 1 0 10 0 0 5 31 144 2
    [109, 121] [] [] (by decide) (by decide) (by decide) (by decide)

/-- The resolver's iteration keeps the pod IP of the last matching item:
its fold equals the last element of the filtered listing (or the
accumulator when nothing matches). -/
theorem resolveFold_eq_getLast (pods : List Pod) (acc : String × Bool) :
    pods.foldl
        (fun a p => if strContains p.name AgentPodName then (p.podIP, true) else a) acc =
      match (pods.filter fun p => strContains p.name AgentPodName).getLast? with
      | none => acc
      | some p => (p.podIP, true) := by
  induction pods generalizing acc with
  | nil => rfl
  | cons p ps ih =>
    rw [List.foldl_cons, List.filter_cons]
    by_cases hp : strContains p.name AgentPodName = true
    · rw [if_pos hp, if_pos hp, ih]
      cases hL : (ps.filter fun q => strContains q.name AgentPodName) with
      | nil => rfl
      | cons x xs =>
        rw [List.getLast?_cons_cons]
        cases hg : (x :: xs).getLast? with
        | none => exact absurd (List.getLast?_eq_none_iff.mp hg) (by simp)
        | some q => rfl
    · rw [if_neg hp, if_neg hp, ih]

/-- C7: `getTargetIpByNodeName` returns the pod IP of the last item of the
backend listing whose name contains the mesh-agent substring, and an error
when the backend call errors or when no item matches. -/
theorem c7_resolver_last_match (w : World) (n : String) :
    getTargetIpByNodeName w n =
      match w.listPods n with
      | .error e => .error e
      | .ok pods =>
        match (pods.filter fun p => strContains p.name AgentPodName).getLast? with
        | none => .error ("edgemesh agent not found on node [" ++ n ++ "]")
        | some p => .ok p.podIP := by
  unfold getTargetIpByNodeName
  cases hw : w.listPods n with
  | error e => rfl
  | ok pods =>
    dsimp only
    rw [resolveFold_eq_getLast]
    cases hL : (pods.filter fun p => strContains p.name AgentPodName).getLast? with
    | none => rfl
    | some p => rfl

/-- C10: when the last matching mesh-agent pod of the listing has an empty
pod IP, the resolver returns the empty string with no error — it never
validates that the IP is non-empty. -/
theorem c10_empty_podip_ok (w : World) (n : String) (pods : List Pod) (p : Pod)
    (h1 : w.listPods n = .ok pods)
    (h2 : (pods.filter fun q => strContains q.name AgentPodName).getLast? = some p)
    (h3 : p.podIP = "") :
    getTargetIpByNodeName w n = .ok "" := by
  unfold getTargetIpByNodeName
  rw [h1]
  dsimp only
  rw [resolveFold_eq_getLast, h2]
  simp [h3]

/-- C10 witness: a listing holding one matching pod with empty pod IP makes
the resolver succeed with the empty string. -/
theorem c10_empty_podip_ok_witness :
    getTargetIpByNodeName ⟨fun _ => .ok [⟨"edgemesh-agent-abc", ""⟩], true⟩ "nodeB" =
      .ok "" :=
  c10_empty_podip_ok ⟨fun _ => .ok [⟨"edgemesh-agent-abc", ""⟩], true⟩ "nodeB"
    [⟨"edgemesh-agent-abc", ""⟩] ⟨"edgemesh-agent-abc", ""⟩ rfl (by decide) rfl

/-- C5: after a successful parse, a backend resolution is attempted exactly
when the address type is the domain type and the destination differs from
the agent's own node name; otherwise the connection is rejected with no
backend query and no tunnel-stream request. -/
theorem c5_policy_gate (render6 : List Nat → String) (w : World) (s : Socks5Proxy)
    (c : Conn) (h : SocksHandle) (c1 : Conn)
    (hp : parsingConnect render6 s.SocksHandle c = (h, c1, none)) :
    ((h.Request.AddressType ≠ ATYPDomain ∨ h.Request.DstAddr = s.NodeName) →
      (handleSocksProxy render6 w s c).trace.queries = [] ∧
      (handleSocksProxy render6 w s c).trace.tunnelCalls = []) ∧
    (h.Request.AddressType = ATYPDomain → h.Request.DstAddr ≠ s.NodeName →
      (handleSocksProxy render6 w s c).trace.queries = [h.Request.DstAddr]) := by
  unfold handleSocksProxy
  rw [hp]
  dsimp only
  constructor
  · intro hrej
    rw [if_pos hrej]
    exact ⟨rfl, rfl⟩
  · intro hd hn
    rw [if_neg (by simp [hd, hn])]
    cases hres : getTargetIpByNodeName w h.Request.DstAddr with
    | error e => rfl
    | ok ip =>
      dsimp only
      by_cases hc : h.Request.Command = CmdConnect
      · rw [if_pos hc]
      · rw [if_neg hc]

/-- C5 witness: a request whose destination equals the agent's own node
name is rejected with no backend query and no tunnel-stream request. -/
theorem c5_policy_gate_witness :
    (((⟨⟨5, 1, 0, 3, "abc", 80⟩⟩ : SocksHandle).Request.AddressType ≠ ATYPDomain ∨
        (⟨⟨5, 1, 0, 3, "abc", 80⟩⟩ : SocksHandle).Request.DstAddr =
          (newSocks5Proxy "abc").NodeName) →
      (handleSocksProxy (fun _ => "") ⟨fun _ => .ok [], true⟩ (newSocks5Proxy "abc")
        ⟨[5, 1, 0, 5, 1, 0, 3, 3, 97, 98, 99, 0, 80], [], [], [], false⟩).trace.queries = [] ∧
      (handleSocksProxy (fun _ => "") ⟨fun _ => .ok [], true⟩ (newSocks5Proxy "abc")
        ⟨[5, 1, 0, 5, 1, 0, 3, 3, 97, 98, 99, 0, 80], [], [], [], false⟩).trace.tunnelCalls = []) ∧
    ((⟨⟨5, 1, 0, 3, "abc", 80⟩⟩ : SocksHandle).Request.AddressType = ATYPDomain →
      (⟨⟨5, 1, 0, 3, "abc", 80⟩⟩ : SocksHandle).Request.DstAddr ≠
        (newSocks5Proxy "abc").NodeName →
      (handleSocksProxy (fun _ => "") ⟨fun _ => .ok [], true⟩ (newSocks5Proxy "abc")
        ⟨[5, 1, 0, 5, 1, 0, 3, 3, 97, 98, 99, 0, 80], [], [], [], false⟩).trace.queries =
        [(⟨⟨5, 1, 0, 3, "abc", 80⟩⟩ : SocksHandle).Request.DstAddr]) :=
  c5_policy_gate (fun _ => "") ⟨fun _ => .ok [], true⟩ (newSocks5Proxy "abc")
    ⟨[5, 1, 0, 5, 1, 0, 3, 3, 97, 98, 99, 0, 80], [], [], [], false⟩
    ⟨⟨5, 1, 0, 3, "abc", 80⟩⟩ ⟨[], [], [5, 0], [[5, 0]], false⟩ (by decide)

/-- C6 counterexample: a parsed CONNECT request that passes policy
validation (domain type, not the agent's own node) whose resolution fails
(empty listing) produces no tunnel-stream request, so "dispatch iff
command = CONNECT" is false as stated. -/
theorem c6_connect_counterexample :
    ((handleSocksProxy (fun _ => "") ⟨fun _ => .ok [], true⟩ (newSocks5Proxy "self")
        ⟨[5, 1, 0, 5, 1, 0, 3, 3, 97, 98, 99, 0, 80], [], [], [], false⟩).proxy.SocksHandle.Request.Command =
      CmdConnect) ∧
    ((handleSocksProxy (fun _ => "") ⟨fun _ => .ok [], true⟩ (newSocks5Proxy "self")
        ⟨[5, 1, 0, 5, 1, 0, 3, 3, 97, 98, 99, 0, 80], [], [], [], false⟩).proxy.SocksHandle.Request.AddressType =
      ATYPDomain) ∧
    ((handleSocksProxy (fun _ => "") ⟨fun _ => .ok [], true⟩ (newSocks5Proxy "self")
        ⟨[5, 1, 0, 5, 1, 0, 3, 3, 97, 98, 99, 0, 80], [], [], [], false⟩).proxy.SocksHandle.Request.DstAddr ≠
      (newSocks5Proxy "self").NodeName) ∧
    (handleSocksProxy (fun _ => "") ⟨fun _ => .ok [], true⟩ (newSocks5Proxy "self")
        ⟨[5, 1, 0, 5, 1, 0, 3, 3, 97, 98, 99, 0, 80], [], [], [], false⟩).trace.tunnelCalls = [] := by
  decide

/-- C6 (amended): for a parsed request that passes policy validation and
whose destination resolution succeeds, a tunnel-stream request is made if
and only if the command is CONNECT; for any other command the connection
is closed with no dispatch and no relay. -/
theorem c6_amended_connect_dispatch (render6 : List Nat → String) (w : World)
    (s : Socks5Proxy) (c : Conn) (h : SocksHandle) (c1 : Conn) (ip : String)
    (hp : parsingConnect render6 s.SocksHandle c = (h, c1, none))
    (hd : h.Request.AddressType = ATYPDomain)
    (hn : h.Request.DstAddr ≠ s.NodeName)
    (hr : getTargetIpByNodeName w h.Request.DstAddr = .ok ip) :
    ((handleSocksProxy render6 w s c).trace.tunnelCalls ≠ [] ↔
      h.Request.Command = CmdConnect) ∧
    (h.Request.Command = CmdConnect →
      (handleSocksProxy render6 w s c).trace.tunnelCalls =
        [⟨"tcp", h.Request.DstAddr, ip, h.Request.DstPort⟩]) ∧
    (h.Request.Command ≠ CmdConnect →
      (handleSocksProxy render6 w s c).trace.tunnelCalls = [] ∧
      (handleSocksProxy render6 w s c).trace.relayStarted = false ∧
      (handleSocksProxy render6 w s c).trace.closed = true) := by
  unfold handleSocksProxy
  rw [hp]
  dsimp only
  rw [if_neg (by simp [hd, hn])]
  rw [hr]
  dsimp only
  by_cases hc : h.Request.Command = CmdConnect
  · rw [if_pos hc]
    have hopts : (proxyConnectToRemote w h.Request.DstAddr ip h.Request.DstPort c1).opts =
        ⟨"tcp", h.Request.DstAddr, ip, h.Request.DstPort⟩ := by
      unfold proxyConnectToRemote
      by_cases hs : w.streamOk = false
      · rw [if_pos hs]
      · rw [if_neg hs]
    refine ⟨by simp [hc], fun _ => ?_, fun hcc => absurd hc hcc⟩
    show [(proxyConnectToRemote w h.Request.DstAddr ip h.Request.DstPort c1).opts] = _
    rw [hopts]
  · rw [if_neg hc]
    exact ⟨by simp [hc], fun hcc => absurd hcc hc, fun _ => ⟨rfl, rfl, rfl⟩⟩

/-- C6 amended witness: with a resolvable destination and command CONNECT,
exactly one tunnel-stream request `(tcp, abc, 10.0.0.5, 80)` is made. -/
theorem c6_amended_connect_dispatch_witness :
    ((handleSocksProxy (fun _ => "")
        ⟨fun _ => .ok [⟨"edgemesh-agent-1", "10.0.0.5"⟩], true⟩ (newSocks5Proxy "self")
        ⟨[5, 1, 0, 5, 1, 0, 3, 3, 97, 98, 99, 0, 80], [], [], [], false⟩).trace.tunnelCalls ≠ [] ↔
      (⟨⟨5, 1, 0, 3, "abc", 80⟩⟩ : SocksHandle).Request.Command = CmdConnect) ∧
    ((⟨⟨5, 1, 0, 3, "abc", 80⟩⟩ : SocksHandle).Request.Command = CmdConnect →
      (handleSocksProxy (fun _ => "")
        ⟨fun _ => .ok [⟨"edgemesh-agent-1", "10.0.0.5"⟩], true⟩ (newSocks5Proxy "self")
        ⟨[5, 1, 0, 5, 1, 0, 3, 3, 97, 98, 99, 0, 80], [], [], [], false⟩).trace.tunnelCalls =
        [⟨"tcp", (⟨⟨5, 1, 0, 3, "abc", 80⟩⟩ : SocksHandle).Request.DstAddr, "10.0.0.5",
          (⟨⟨5, 1, 0, 3, "abc", 80⟩⟩ : SocksHandle).Request.DstPort⟩]) ∧
    ((⟨⟨5, 1, 0, 3, "abc", 80⟩⟩ : SocksHandle).Request.Command ≠ CmdConnect →
      (handleSocksProxy (fun _ => "")
        ⟨fun _ => .ok [⟨"edgemesh-agent-1", "10.0.0.5"⟩], true⟩ (newSocks5Proxy "self")
        ⟨[5, 1, 0, 5, 1, 0, 3, 3, 97, 98, 99, 0, 80], [], [], [], false⟩).trace.tunnelCalls = [] ∧
      (handleSocksProxy (fun _ => "")
        ⟨fun _ => .ok [⟨"edgemesh-agent-1", "10.0.0.5"⟩], true⟩ (newSocks5Proxy "self")
        ⟨[5, 1, 0, 5, 1, 0, 3, 3, 97, 98, 99, 0, 80], [], [], [], false⟩).trace.relayStarted = false ∧
      (handleSocksProxy (fun _ => "")
        ⟨fun _ => .ok [⟨"edgemesh-agent-1", "10.0.0.5"⟩], true⟩ (newSocks5Proxy "self")
        ⟨[5, 1, 0, 5, 1, 0, 3, 3, 97, 98, 99, 0, 80], [], [], [], false⟩).trace.closed = true) :=
  c6_amended_connect_dispatch (fun _ => "")
    ⟨fun _ => .ok [⟨"edgemesh-agent-1", "10.0.0.5"⟩], true⟩ (newSocks5Proxy "self")
    ⟨[5, 1, 0, 5, 1, 0, 3, 3, 97, 98, 99, 0, 80], [], [], [], false⟩
    ⟨⟨5, 1, 0, 3, "abc", 80⟩⟩ ⟨[], [], [5, 0], [[5, 0]], false⟩ "10.0.0.5"
    (by decide) (by decide) (by decide) rfl

/-- C8: when the tunnel transport cannot provide a relay stream for a
dispatched CONNECT request, nothing further is written to the client (no
success reply, no error reply), no relay is started, and the connection is
closed. -/
theorem c8_tunnel_failure_silent_close (render6 : List Nat → String) (w : World)
    (s : Socks5Proxy) (c : Conn) (h : SocksHandle) (c1 : Conn) (ip : String)
    (hp : parsingConnect render6 s.SocksHandle c = (h, c1, none))
    (hd : h.Request.AddressType = ATYPDomain)
    (hn : h.Request.DstAddr ≠ s.NodeName)
    (hr : getTargetIpByNodeName w h.Request.DstAddr = .ok ip)
    (hcmd : h.Request.Command = CmdConnect)
    (hs : w.streamOk = false) :
    (handleSocksProxy render6 w s c).conn.writes = c1.writes ∧
    (handleSocksProxy render6 w s c).conn.written = c1.written ∧
    (handleSocksProxy render6 w s c).trace.relayStarted = false ∧
    (handleSocksProxy render6 w s c).trace.closed = true := by
  unfold handleSocksProxy
  rw [hp]
  dsimp only
  rw [if_neg (by simp [hd, hn])]
  rw [hr]
  dsimp only
  rw [if_pos hcmd]
  unfold proxyConnectToRemote
  rw [if_pos hs]
  exact ⟨rfl, rfl, rfl, rfl⟩

/-- C8 witness: a CONNECT request to a resolvable node with a failing
tunnel transport leaves the client with only the handshake reply, no relay,
and a closed connection. -/
theorem c8_tunnel_failure_silent_close_witness :
    (handleSocksProxy (fun _ => "")
        ⟨fun _ => .ok [⟨"edgemesh-agent-1", "10.0.0.5"⟩], false⟩ (newSocks5Proxy "self")
        ⟨[5, 1, 0, 5, 1, 0, 3, 3, 97, 98, 99, 0, 80], [], [], [], false⟩).conn.writes =
      (⟨[], [], [5, 0], [[5, 0]], false⟩ : Conn).writes ∧
    (handleSocksProxy (fun _ => "")
        ⟨fun _ => .ok [⟨"edgemesh-agent-1", "10.0.0.5"⟩], false⟩ (newSocks5Proxy "self")
        ⟨[5, 1, 0, 5, 1, 0, 3, 3, 97, 98, 99, 0, 80], [], [], [], false⟩).conn.written =
      (⟨[], [], [5, 0], [[5, 0]], false⟩ : Conn).written ∧
    (handleSocksProxy (fun _ => "")
        ⟨fun _ => .ok [⟨"edgemesh-agent-1", "10.0.0.5"⟩], false⟩ (newSocks5Proxy "self")
        ⟨[5, 1, 0, 5, 1, 0, 3, 3, 97, 98, 99, 0, 80], [], [], [], false⟩).trace.relayStarted = false ∧
    (handleSocksProxy (fun _ => "")
        ⟨fun _ => .ok [⟨"edgemesh-agent-1", "10.0.0.5"⟩], false⟩ (newSocks5Proxy "self")
        ⟨[5, 1, 0, 5, 1, 0, 3, 3, 97, 98, 99, 0, 80], [], [], [], false⟩).trace.closed = true :=
  c8_tunnel_failure_silent_close (fun _ => "")
    ⟨fun _ => .ok [⟨"edgemesh-agent-1", "10.0.0.5"⟩], false⟩ (newSocks5Proxy "self")
    ⟨[5, 1, 0, 5, 1, 0, 3, 3, 97, 98, 99, 0, 80], [], [], [], false⟩
    ⟨⟨5, 1, 0, 3, "abc", 80⟩⟩ ⟨[], [], [5, 0], [[5, 0]], false⟩ "10.0.0.5"
    (by decide) (by decide) (by decide) rfl (by decide) rfl

/-- C9: when the tunnel transport provides the relay stream, the
dispatcher issues exactly one write to the client, of exactly the fixed
10-byte success reply, and starts the relay regardless of whether that
write succeeds or fails: on any connection, write-accepting or
write-rejecting, the reply is the one attempted write and the relay is
started (the bytes actually landing only when the connection accepts the
write). -/
theorem c9_success_reply_then_relay (w : World) (host targetIP : String)
    (port : Int) (c : Conn) (hs : w.streamOk = true) :
    (proxyConnectToRemote w host targetIP port c).conn.writes =
      c.writes ++ [[5, 0, 0, 1, 0, 0, 0, 0, 0, 0]] ∧
    (proxyConnectToRemote w host targetIP port c).conn.written =
      (if c.writeErr then c.written else c.written ++ [5, 0, 0, 1, 0, 0, 0, 0, 0, 0]) ∧
    (proxyConnectToRemote w host targetIP port c).relayStarted = true := by
  unfold proxyConnectToRemote
  rw [if_neg (by simp [hs])]
  unfold connWrite
  by_cases hw : c.writeErr <;> simp [hw, DefaultResponse]

/-- C9 witness: with a working tunnel transport, on a connection that
rejects writes the fixed success reply is still the one attempted write
and the relay starts with nothing landing, while on a write-accepting
connection the reply lands after the handshake reply and the relay
starts. -/
theorem c9_success_reply_then_relay_witness :
    ((proxyConnectToRemote ⟨fun _ => .ok [], true⟩ "abc" "10.0.0.5" 80
        ⟨[], [], [5, 0], [[5, 0]], true⟩).conn.writes =
        [[5, 0], [5, 0, 0, 1, 0, 0, 0, 0, 0, 0]] ∧
      (proxyConnectToRemote ⟨fun _ => .ok [], true⟩ "abc" "10.0.0.5" 80
        ⟨[], [], [5, 0], [[5, 0]], true⟩).conn.written = [5, 0] ∧
      (proxyConnectToRemote ⟨fun _ => .ok [], true⟩ "abc" "10.0.0.5" 80
        ⟨[], [], [5, 0], [[5, 0]], true⟩).relayStarted = true) ∧
    ((proxyConnectToRemote ⟨fun _ => .ok [], true⟩ "abc" "10.0.0.5" 80
        ⟨[], [], [5, 0], [[5, 0]], false⟩).conn.writes =
        [[5, 0], [5, 0, 0, 1, 0, 0, 0, 0, 0, 0]] ∧
      (proxyConnectToRemote ⟨fun _ => .ok [], true⟩ "abc" "10.0.0.5" 80
        ⟨[], [], [5, 0], [[5, 0]], false⟩).conn.written =
        [5, 0, 5, 0, 0, 1, 0, 0, 0, 0, 0, 0] ∧
      (proxyConnectToRemote ⟨fun _ => .ok [], true⟩ "abc" "10.0.0.5" 80
        ⟨[], [], [5, 0], [[5, 0]], false⟩).relayStarted = true) :=
  ⟨c9_success_reply_then_relay ⟨fun _ => .ok [], true⟩ "abc" "10.0.0.5" 80
      ⟨[], [], [5, 0], [[5, 0]], true⟩ rfl,
    c9_success_reply_then_relay ⟨fun _ => .ok [], true⟩ "abc" "10.0.0.5" 80
      ⟨[], [], [5, 0], [[5, 0]], false⟩ rfl⟩

end EdgeMesh
